/-
A shallow embedding of `src/common/ItemRegistry.js` of the Fly-Pie
repository, together with proofs about its item-type registry.

The file models:
  * the JavaScript records produced by the `createItem` factories
    (`JSRecord`: a record with optional `name`, `icon`, `activate` and
    `items` fields, mirroring plain JS object literals);
  * the bodies of the `activate` closures as a deep embedding
    (`ActSpec`), with an interpreter `runActivate` that mirrors the
    try/catch structure of each closure in the source;
  * the host (GLib / Gio / Gtk / GMenu / Shell) API surface that the
    factories query, as explicit data (`BookmarksHost`, `RunningAppsHost`,
    `RecentHost`, `FrequentHost`, `FavoritesHost`, `MainMenuHost`);
  * each `createItem` factory of the `ItemTypes` table, translated
    line by line from the source.
-/
import Mathlib

set_option maxHeartbeats 1000000

namespace ItemRegistry

/-! ### Activation closures

Each leaf record's `activate` field in the source is a closure whose body
is fixed by its item type.  We embed the closures deeply: `ActSpec` names
the closure body together with its captured data, and `runActivate`
interprets it against a host, reproducing the source's try/catch layout.
-/

/-- The body of one of the `activate` closures in `ItemRegistry.js`,
together with the data it captures.  One constructor per distinct closure
in the source. -/
inductive ActSpec where
  /-- `Hotkey`: `InputManipulator.activateAccelerator(hotkey)` (no try/catch). -/
  | hotkeyAct (hotkey : String)
  /-- `Command`: `try { ctx; create_from_commandline; launch } catch { notify }`. -/
  | commandAct (command : String)
  /-- `Url`: `try { Gio.AppInfo.launch_default_for_uri(url, null) } catch { notify }`. -/
  | urlAct (url : String)
  /-- `File`: `try { launch_default_for_uri('file://' + file, null) } catch { notify }`. -/
  | fileAct (file : String)
  /-- `Bookmarks.pushFile`: `ctx` outside the try, then
  `try { launch_default_for_uri(uri, ctx) } catch { notify }`. -/
  | bookmarkAct (uri : String)
  /-- `RunningApps`: `window.activate(0)` (no try/catch). -/
  | windowAct (window : Nat)
  /-- `RecentFiles`: `ctx` outside the try, then
  `try { launch_default_for_uri(uri, ctx) } catch { notify }`. -/
  | recentAct (uri : String)
  /-- `FrequentlyUsed` / `Favorites`: `app.open_new_window(-1)` (no try/catch). -/
  | appNewWindowAct (appId : String)
  /-- `MainMenu` entry: `ctx`, then `try { app.launch([], ctx) } catch { notify }`;
  in the source `ctx` is created inside the closure before the try. -/
  | appLaunchAct (appId : String)
deriving DecidableEq, Repr

/-- The observable outcome of running an `activate` closure: normal return,
a caught exception turned into a user notification, or an uncaught
exception escaping the closure. -/
inductive ActResult where
  | ok
  | notified (msg : String)
  | escaped (err : String)
deriving DecidableEq, Repr

/-- The host API calls an `activate` closure can make.  Each field models
one native call; `Except.error e` models the call throwing `e`. -/
structure Host where
  /-- `InputManipulator.activateAccelerator(hotkey)`. -/
  activateAccelerator : String → Except String Unit
  /-- `global.create_app_launch_context(0, -1)`. -/
  createAppLaunchContext : Except String Unit
  /-- `Gio.AppInfo.create_from_commandline(command, null, NONE)`. -/
  createFromCommandline : String → Except String Unit
  /-- `item.launch([], ctx)` on the `Gio.AppInfo` made from a command line. -/
  launchCommand : String → Except String Unit
  /-- `Gio.AppInfo.launch_default_for_uri(uri, ctxOrNull)`. -/
  launchDefaultForUri : String → Except String Unit
  /-- `window.activate(0)`. -/
  windowActivate : Nat → Except String Unit
  /-- `app.open_new_window(-1)`. -/
  openNewWindow : String → Except String Unit
  /-- `app.launch([], ctx)` on a `GMenu` entry's app info. -/
  appLaunch : String → Except String Unit

/-- Interpreter for the `activate` closures, mirroring each closure body
from the source, including which host calls sit inside a `try`/`catch`
and which do not. -/
def runActivate (h : Host) : ActSpec → ActResult
  | .hotkeyAct hotkey =>
    -- `InputManipulator.activateAccelerator(hotkey);` -- no handler.
    match h.activateAccelerator hotkey with
    | .ok _ => .ok
    | .error e => .escaped e
  | .commandAct command =>
    -- all three calls are inside the try block.
    match h.createAppLaunchContext with
    | .error e => .notified ("Failed to execute command: " ++ e)
    | .ok _ =>
      match h.createFromCommandline command with
      | .error e => .notified ("Failed to execute command: " ++ e)
      | .ok _ =>
        match h.launchCommand command with
        | .error e => .notified ("Failed to execute command: " ++ e)
        | .ok _ => .ok
  | .urlAct url =>
    match h.launchDefaultForUri url with
    | .error e => .notified ("Failed to open URL: " ++ e)
    | .ok _ => .ok
  | .fileAct file =>
    match h.launchDefaultForUri ("file://" ++ file) with
    | .error e => .notified ("Failed to open file: " ++ e)
    | .ok _ => .ok
  | .bookmarkAct uri =>
    -- `let ctx = global.create_app_launch_context(0, -1);` is OUTSIDE the try.
    match h.createAppLaunchContext with
    | .error e => .escaped e
    | .ok _ =>
      match h.launchDefaultForUri uri with
      | .error e => .notified ("Failed to open: " ++ e)
      | .ok _ => .ok
  | .windowAct w =>
    -- `activate: () => window.activate(0)` -- no handler.
    match h.windowActivate w with
    | .ok _ => .ok
    | .error e => .escaped e
  | .recentAct uri =>
    -- `let ctx = ...` is OUTSIDE the try, as in `Bookmarks`.
    match h.createAppLaunchContext with
    | .error e => .escaped e
    | .ok _ =>
      match h.launchDefaultForUri uri with
      | .error e => .notified ("Failed to open URI: " ++ e)
      | .ok _ => .ok
  | .appNewWindowAct appId =>
    -- `activate: () => app.open_new_window(-1)` -- no handler.
    match h.openNewWindow appId with
    | .ok _ => .ok
    | .error e => .escaped e
  | .appLaunchAct appId =>
    -- `let ctx = ...` outside the try, then `try { app.launch([], ctx) }`.
    match h.createAppLaunchContext with
    | .error e => .escaped e
    | .ok _ =>
      match h.appLaunch appId with
      | .error e => .notified ("Failed to launch app: " ++ e)
      | .ok _ => .ok

/-- Whether an activation outcome is an uncaught exception. -/
def isEscaped : ActResult → Bool
  | .escaped _ => true
  | _ => false

/-! ### The records produced by the factories

JavaScript object literals such as `{name: n, icon: i, activate: f}` and
`{name: n, icon: i, items: []}` are modelled as records in which every
field is optional, so that the shape claim (leaf vs. container) is a real
statement and not a typing artefact. -/

/-- A plain JS object as built by the factories: any subset of the fields
`name`, `icon`, `activate`, `items` may be present. -/
inductive JSRecord where
  | mk (name : Option String) (icon : Option String)
       (activate : Option ActSpec) (items : Option (List JSRecord)) : JSRecord

/-- The `name` field. -/
def JSRecord.name : JSRecord → Option String
  | .mk n _ _ _ => n

/-- The `icon` field. -/
def JSRecord.icon : JSRecord → Option String
  | .mk _ i _ _ => i

/-- The `activate` field. -/
def JSRecord.activate : JSRecord → Option ActSpec
  | .mk _ _ a _ => a

/-- The `items` field. -/
def JSRecord.items : JSRecord → Option (List JSRecord)
  | .mk _ _ _ itms => itms

/-- The `items` field, defaulting to `[]` when absent. -/
def JSRecord.itemsD (r : JSRecord) : List JSRecord := r.items.getD []

/-- A leaf record `{name, icon, activate}` as produced by the factories. -/
def mkLeaf (name icon : String) (act : ActSpec) : JSRecord :=
  .mk (some name) (some icon) (some act) none

/-- A container record `{name, icon, items}` as produced by the factories. -/
def mkContainer (name icon : String) (items : List JSRecord) : JSRecord :=
  .mk (some name) (some icon) none (some items)

mutual
/-- The uniform `MenuItem` shape: `name` and `icon` present, and exactly
one of `activate` (leaf) or `items` (container), recursively. -/
def wellShaped : JSRecord → Bool
  | .mk n i a itms =>
    n.isSome && i.isSome &&
    (match a, itms with
     | some _, none => true
     | none, some xs => wellShapedList xs
     | _, _ => false)

/-- `wellShaped` for every record of a list. -/
def wellShapedList : List JSRecord → Bool
  | [] => true
  | x :: xs => wellShaped x && wellShapedList xs
end

mutual
/-- Every record of the tree (itself and all nested items) has a present,
non-empty `name` and a present, non-empty `icon`. -/
def recNonEmpty : JSRecord → Bool
  | .mk n i _ itms =>
    (match n with | some s => !s.isEmpty | none => false) &&
    (match i with | some s => !s.isEmpty | none => false) &&
    (match itms with | some xs => recNonEmptyList xs | none => true)

/-- `recNonEmpty` for every record of a list. -/
def recNonEmptyList : List JSRecord → Bool
  | [] => true
  | x :: xs => recNonEmpty x && recNonEmptyList xs
end

/-! ### The host data each submenu factory enumerates

The factories below query GLib / Gio / Gtk / Shell / GMenu.  Those calls
only read host state, so we model the host as explicit data passed to the
factory. -/

/-- A `Gio.File` as used by `Bookmarks.createItem`: the results of the two
`query_info` calls (which may throw), the basename and the URI. -/
structure GFile where
  /-- `file.query_info('standard::display-name', 0, null).get_display_name()`. -/
  queryDisplayName : Except String String
  /-- `file.query_info('standard::icon', 0, null).get_icon().to_string()`. -/
  queryIconString : Except String String
  /-- `file.get_basename()`. -/
  basename : String
  /-- `file.get_uri()`. -/
  uri : String

/-- One of the eight `GLib.UserDirectory` values listed in
`DEFAULT_DIRECTORIES`. -/
inductive UserDirectory where
  | DIRECTORY_DESKTOP
  | DIRECTORY_DOCUMENTS
  | DIRECTORY_DOWNLOAD
  | DIRECTORY_MUSIC
  | DIRECTORY_PICTURES
  | DIRECTORY_TEMPLATES
  | DIRECTORY_PUBLIC_SHARE
  | DIRECTORY_VIDEOS
deriving DecidableEq, Repr

/-- The host surface used by `Bookmarks.createItem`. -/
structure BookmarksHost where
  /-- `GLib.get_home_dir()`. -/
  getHomeDir : String
  /-- `GLib.get_user_special_dir(d)`. -/
  getUserSpecialDir : UserDirectory → String
  /-- `Gio.File.new_for_path(path)`. -/
  newForPath : String → GFile

/-- A window of a running app: `window.get_title()` and the handle the
`activate` closure captures. -/
structure RWindow where
  title : String
  id : Nat

/-- A running app as returned by `Shell.AppSystem.get_default().get_running()`:
its windows and `get_app_info().get_icon().to_string()`. -/
structure RApp where
  windows : List RWindow
  iconString : String

/-- The host surface used by `RunningApps.createItem`. -/
structure RunningAppsHost where
  /-- `Shell.AppSystem.get_default().get_running()`. -/
  getRunning : List RApp

/-- A `Gtk.RecentInfo` as used by `RecentFiles.createItem`. -/
structure RecentInfo where
  /-- `recentFile.exists()`. -/
  existsOnDisk : Bool
  /-- `recentFile.get_display_name()`. -/
  displayName : String
  /-- `recentFile.get_gicon().to_string()`. -/
  giconString : String
  /-- `recentFile.get_uri()`. -/
  uri : String

/-- The host surface used by `RecentFiles.createItem`. -/
structure RecentHost where
  /-- `Gtk.RecentManager.get_default().get_items()`. -/
  getItems : List RecentInfo

/-- A `Shell.App` as used by `FrequentlyUsed` and `Favorites`:
`get_name()`, `get_app_info().get_icon().to_string()`, and the handle the
`activate` closure captures. -/
structure ShellApp where
  appName : String
  iconString : String
  id : String

/-- The host surface used by `FrequentlyUsed.createItem`.  The JS list may
contain null entries (the source guards with `if (app)`), hence `Option`. -/
structure FrequentHost where
  /-- `Shell.AppUsage.get_default().get_most_used()`. -/
  getMostUsed : List (Option ShellApp)

/-- The host surface used by `Favorites.createItem`. -/
structure FavoritesHost where
  /-- `global.settings.get_strv('favorite-apps')`. -/
  favoriteApps : List String
  /-- `Shell.AppSystem.get_default().lookup_app(appName)`; null when the
  app is not installed. -/
  lookupApp : String → Option ShellApp

/-- A `GMenu` entry's `get_app_info()`: `get_name()`, `get_icon()` (which
may be null) and the handle captured by the `activate` closure. -/
structure GAppInfo where
  appName : String
  /-- `app.get_icon()`, `none` when the entry has no icon; when present,
  the value of `app.get_icon().to_string()`. -/
  icon : Option String
  id : String

/-- A node of the `GMenu.Tree`, distinguished by `GMenu.TreeItemType` as
in the `switch` of `pushMenuItems`. -/
inductive GMenuNode where
  | ENTRY (app : GAppInfo)
  | DIRECTORY (dirName : String) (dirIconString : String) (children : List GMenuNode)
  | SEPARATOR
  | HEADER
  | ALIAS

/-- The host surface used by `MainMenu.createItem`: the children of
`menu.get_root_directory()` after `menu.load_sync()`. -/
structure MainMenuHost where
  root : List GMenuNode

/-- All host surfaces bundled, for the uniform dispatcher. -/
structure HostEnv where
  bookmarks : BookmarksHost
  runningApps : RunningAppsHost
  recent : RecentHost
  frequent : FrequentHost
  favorites : FavoritesHost
  mainMenu : MainMenuHost

/-! ### The `SettingsTypes` table -/

namespace SettingsTypes

def NONE : Nat := 0

def HOTKEY : Nat := 1

def COMMAND : Nat := 2

def FILE : Nat := 3

def URL : Nat := 4

def COUNT : Nat := 5

/-- The values of the `SettingsTypes` object, in declaration order. -/
def values : List Nat := [NONE, HOTKEY, COMMAND, FILE, URL, COUNT]

end SettingsTypes

/-! ### The `createItem` factories of the `ItemTypes` table -/

namespace ItemTypes

/-- `Hotkey.createItem`: leaf whose `activate` calls
`InputManipulator.activateAccelerator(hotkey)`. -/
def Hotkey.createItem (name icon hotkey : String) : JSRecord :=
  mkLeaf name icon (.hotkeyAct hotkey)

/-- `Command.createItem`: leaf whose `activate` creates a launch context,
a `Gio.AppInfo` from the command line, and launches it, all in a try
block. -/
def Command.createItem (name icon command : String) : JSRecord :=
  mkLeaf name icon (.commandAct command)

/-- `Url.createItem`: leaf whose `activate` opens the URL with the
default browser inside a try block. -/
def Url.createItem (name icon url : String) : JSRecord :=
  mkLeaf name icon (.urlAct url)

/-- `File.createItem`: like `Url`, but the URI is `'file://' + file`. -/
def File.createItem (name icon file : String) : JSRecord :=
  mkLeaf name icon (.fileAct file)

/-- The `pushFile` helper of `Bookmarks.createItem`: both `query_info`
calls sit in their own try/catch; on failure the name falls back to
`file.get_basename()` and the icon to `'missing-image'`. -/
def pushFile (file : GFile) : JSRecord :=
  let name :=
    match file.queryDisplayName with
    | .ok s => s
    | .error _ => file.basename
  let icon :=
    match file.queryIconString with
    | .ok s => s
    | .error _ => "missing-image"
  mkLeaf name icon (.bookmarkAct file.uri)

/-- The `DEFAULT_DIRECTORIES` array of `Bookmarks.createItem`, in source
order. -/
def DEFAULT_DIRECTORIES : List UserDirectory :=
  [.DIRECTORY_DESKTOP, .DIRECTORY_DOCUMENTS,
   .DIRECTORY_DOWNLOAD, .DIRECTORY_MUSIC,
   .DIRECTORY_PICTURES, .DIRECTORY_TEMPLATES,
   .DIRECTORY_PUBLIC_SHARE, .DIRECTORY_VIDEOS]

/-- `Bookmarks.createItem`: pushes the home directory, then one entry per
`DEFAULT_DIRECTORIES` element (the `for` loop is modelled as a fold that
appends, like `items.push`). -/
def Bookmarks.createItem (h : BookmarksHost) (name icon : String) : JSRecord :=
  let afterHome := [pushFile (h.newForPath h.getHomeDir)]
  let items := DEFAULT_DIRECTORIES.foldl
    (fun acc d => acc ++ [pushFile (h.newForPath (h.getUserSpecialDir d))])
    afterHome
  mkContainer name icon items

/-- `RunningApps.createItem`: for each running app, for each of its
windows, push a leaf `{title, app icon, activate window}`. -/
def RunningApps.createItem (h : RunningAppsHost) (name icon : String) : JSRecord :=
  let items := h.getRunning.foldl
    (fun acc app =>
      app.windows.foldl
        (fun acc2 w => acc2 ++ [mkLeaf w.title app.iconString (.windowAct w.id)])
        acc)
    []
  mkContainer name icon items

/-- `RecentFiles.createItem`: `get_items().slice(0, maxNum)`, then push a
leaf for each entry whose `exists()` is true. -/
def RecentFiles.createItem (h : RecentHost) (name icon : String) (maxNum : Nat) :
    JSRecord :=
  let recentFiles := h.getItems.take maxNum
  let items := recentFiles.foldl
    (fun acc rf =>
      if rf.existsOnDisk then
        acc ++ [mkLeaf rf.displayName rf.giconString (.recentAct rf.uri)]
      else acc)
    []
  mkContainer name icon items

/-- `FrequentlyUsed.createItem`: `get_most_used().slice(0, maxNum)`, then
push a leaf for each non-null app. -/
def FrequentlyUsed.createItem (h : FrequentHost) (name icon : String) (maxNum : Nat) :
    JSRecord :=
  let apps := h.getMostUsed.take maxNum
  let items := apps.foldl
    (fun acc app? =>
      match app? with
      | some app => acc ++ [mkLeaf app.appName app.iconString (.appNewWindowAct app.id)]
      | none => acc)
    []
  mkContainer name icon items

/-- `Favorites.createItem`: for each name in `'favorite-apps'`, look the
app up and push a leaf when the lookup is non-null. -/
def Favorites.createItem (h : FavoritesHost) (name icon : String) : JSRecord :=
  let items := h.favoriteApps.foldl
    (fun acc appName =>
      match h.lookupApp appName with
      | some app => acc ++ [mkLeaf app.appName app.iconString (.appNewWindowAct app.id)]
      | none => acc)
    []
  mkContainer name icon items

/-- The record built for a `GMenu.TreeItemType.ENTRY` node in
`pushMenuItems`: icon defaults to `'missing-image'` when
`app.get_icon()` is null. -/
def entryItem (app : GAppInfo) : JSRecord :=
  let icon :=
    match app.icon with
    | some i => i
    | none => "missing-image"
  mkLeaf app.appName icon (.appLaunchAct app.id)

/-- The `pushMenuItems` recursion of `MainMenu.createItem`: the `while`
loop over `dir.iter()` is the list of children; the `switch` pushes one
leaf per `ENTRY`, recurses and pushes one container per `DIRECTORY`, and
skips `SEPARATOR`, `HEADER`, `ALIAS`. -/
def pushMenuItems : List GMenuNode → List JSRecord
  | [] => []
  | .ENTRY app :: rest => entryItem app :: pushMenuItems rest
  | .DIRECTORY n i cs :: rest =>
    mkContainer n i (pushMenuItems cs) :: pushMenuItems rest
  | .SEPARATOR :: rest => pushMenuItems rest
  | .HEADER :: rest => pushMenuItems rest
  | .ALIAS :: rest => pushMenuItems rest

/-- `MainMenu.createItem`: loads the applications menu tree and recurses
from its root directory. -/
def MainMenu.createItem (h : MainMenuHost) (name icon : String) : JSRecord :=
  mkContainer name icon (pushMenuItems h.root)

end ItemTypes

/-! ### The registry as a table -/

/-- The metadata every `ItemTypes` entry carries besides `createItem`. -/
structure ItemTypeDescr where
  name : String
  icon : String
  description : String
  settingsType : Nat
  settingsList : String

/-- The keys of the `ItemTypes` object. -/
inductive ItemTypeId where
  | Hotkey
  | Command
  | Url
  | File
  | Bookmarks
  | RunningApps
  | RecentFiles
  | FrequentlyUsed
  | Favorites
  | MainMenu
deriving DecidableEq, Repr

/-- The keys of `ItemTypes`, in declaration order. -/
def allItemTypes : List ItemTypeId :=
  [.Hotkey, .Command, .Url, .File, .Bookmarks, .RunningApps, .RecentFiles,
   .FrequentlyUsed, .Favorites, .MainMenu]

/-- The metadata of each `ItemTypes` entry, copied field by field from
the source table. -/
def descrOf : ItemTypeId → ItemTypeDescr
  | .Hotkey => ItemTypeDescr.mk "Press Hotkey" "accessories-character-map"
      "Simulates a key stroke." SettingsTypes.HOTKEY "action-types-list"
  | .Command => ItemTypeDescr.mk "Launch Application" "utilities-terminal"
      "Runs any shell command." SettingsTypes.COMMAND "action-types-list"
  | .Url => ItemTypeDescr.mk "Open URL" "applications-internet"
      "Opens an URL with the default browser." SettingsTypes.URL "action-types-list"
  | .File => ItemTypeDescr.mk "Open File" "text-x-generic"
      "Opens a file with the default applications." SettingsTypes.FILE
      "action-types-list"
  | .Bookmarks => ItemTypeDescr.mk "Bookmarks" "folder"
      "Shows your commonly used directories." SettingsTypes.NONE "submenu-types-list"
  | .RunningApps => ItemTypeDescr.mk "Running Apps" "preferences-system-windows"
      "Shows the currently running applications." SettingsTypes.NONE
      "submenu-types-list"
  | .RecentFiles => ItemTypeDescr.mk "Recent Files" "document-open-recent"
      "Shows your recently used files." SettingsTypes.COUNT "submenu-types-list"
  | .FrequentlyUsed => ItemTypeDescr.mk "Frequently Used" "emblem-favorite"
      "Shows your frequently used applications." SettingsTypes.COUNT
      "submenu-types-list"
  | .Favorites => ItemTypeDescr.mk "Favorites" "starred"
      "Shows your pinned applications." SettingsTypes.NONE "submenu-types-list"
  | .MainMenu => ItemTypeDescr.mk "Main Menu" "applications-system"
      "Shows all installed applications.\nUsually, this is very cluttered;\nyou should rather setup your own menus!"
      SettingsTypes.NONE "submenu-types-list"

/-- The `createItem` function of each `ItemTypes` entry, dispatched
uniformly: `param` carries the hotkey / command line / URL / file path of
the four action types, `maxNum` the count of the two counted submenus. -/
def createItemOf (t : ItemTypeId) (env : HostEnv) (name icon param : String)
    (maxNum : Nat) : JSRecord :=
  match t with
  | .Hotkey => ItemTypes.Hotkey.createItem name icon param
  | .Command => ItemTypes.Command.createItem name icon param
  | .Url => ItemTypes.Url.createItem name icon param
  | .File => ItemTypes.File.createItem name icon param
  | .Bookmarks => ItemTypes.Bookmarks.createItem env.bookmarks name icon
  | .RunningApps => ItemTypes.RunningApps.createItem env.runningApps name icon
  | .RecentFiles => ItemTypes.RecentFiles.createItem env.recent name icon maxNum
  | .FrequentlyUsed => ItemTypes.FrequentlyUsed.createItem env.frequent name icon maxNum
  | .Favorites => ItemTypes.Favorites.createItem env.favorites name icon
  | .MainMenu => ItemTypes.MainMenu.createItem env.mainMenu name icon

/-! ### Abbreviations for the leaf records the submenu builders push -/

/-- The leaf `RecentFiles.createItem` pushes for one recent entry. -/
def recentLeaf (rf : RecentInfo) : JSRecord :=
  mkLeaf rf.displayName rf.giconString (.recentAct rf.uri)

/-- The leaf `FrequentlyUsed.createItem` and `Favorites.createItem` push
for one app. -/
def appLeaf (app : ShellApp) : JSRecord :=
  mkLeaf app.appName app.iconString (.appNewWindowAct app.id)

/-- The leaf `RunningApps.createItem` pushes for one window, with the
owning app's icon. -/
def windowLeaf (iconString : String) (w : RWindow) : JSRecord :=
  mkLeaf w.title iconString (.windowAct w.id)

/-- What one `GMenu` node contributes to `pushMenuItems`: the three-way
`switch` of the source, one leaf per `ENTRY`, one recursively filled
container per `DIRECTORY`, nothing for the other node types. -/
def nodeContribution : GMenuNode → List JSRecord
  | .ENTRY app => [ItemTypes.entryItem app]
  | .DIRECTORY n i cs => [mkContainer n i (ItemTypes.pushMenuItems cs)]
  | .SEPARATOR => []
  | .HEADER => []
  | .ALIAS => []

/-! ### Non-emptiness side conditions on host data (for the amended C3) -/

/-- All strings a `GFile` can contribute to a record are non-empty
(successful `query_info` results and the basename fallback). -/
def gfileNonEmpty (f : GFile) : Bool :=
  (match f.queryDisplayName with | .ok s => !s.isEmpty | .error _ => true) &&
  !f.basename.isEmpty &&
  (match f.queryIconString with | .ok s => !s.isEmpty | .error _ => true)

/-- A running app's icon string and all its window titles are non-empty. -/
def rappNonEmpty (a : RApp) : Bool :=
  !a.iconString.isEmpty && a.windows.all (fun w => !w.title.isEmpty)

/-- A recent entry's display name and icon string are non-empty. -/
def recentInfoNonEmpty (r : RecentInfo) : Bool :=
  !r.displayName.isEmpty && !r.giconString.isEmpty

/-- A shell app's name and icon string are non-empty. -/
def shellAppNonEmpty (a : ShellApp) : Bool :=
  !a.appName.isEmpty && !a.iconString.isEmpty

/-- `shellAppNonEmpty` lifted over a possibly-null app. -/
def optShellAppNonEmpty : Option ShellApp → Bool
  | some a => shellAppNonEmpty a
  | none => true

mutual
/-- All strings a `GMenu` node can contribute are non-empty (a null entry
icon is allowed: the code substitutes `'missing-image'`). -/
def gmenuNodeNonEmpty : GMenuNode → Bool
  | .ENTRY app =>
    !app.appName.isEmpty &&
    (match app.icon with | some i => !i.isEmpty | none => true)
  | .DIRECTORY n i cs => !n.isEmpty && !i.isEmpty && gmenuNodesNonEmpty cs
  | .SEPARATOR => true
  | .HEADER => true
  | .ALIAS => true

/-- `gmenuNodeNonEmpty` for every node of a list. -/
def gmenuNodesNonEmpty : List GMenuNode → Bool
  | [] => true
  | n :: ns => gmenuNodeNonEmpty n && gmenuNodesNonEmpty ns
end

/-- All strings the host can hand to the factories are non-empty. -/
def HostNonEmpty (env : HostEnv) : Prop :=
  (∀ p, gfileNonEmpty (env.bookmarks.newForPath p) = true) ∧
  env.runningApps.getRunning.all rappNonEmpty = true ∧
  env.recent.getItems.all recentInfoNonEmpty = true ∧
  env.frequent.getMostUsed.all optShellAppNonEmpty = true ∧
  (∀ a app, env.favorites.lookupApp a = some app → shellAppNonEmpty app = true) ∧
  gmenuNodesNonEmpty env.mainMenu.root = true

/-! ### Concrete host data for witnesses and counterexamples -/

/-- A file whose two `query_info` calls succeed. -/
def sampleFile : GFile :=
  GFile.mk (.ok "Home") (.ok "folder-icon") "user" "file:///home/user"

/-- A file whose two `query_info` calls throw. -/
def failFile : GFile :=
  GFile.mk (.error "nope") (.error "nope") "user" "file:///home/user"

/-- A menu entry whose `get_icon()` is null. -/
def noIconApp : GAppInfo := GAppInfo.mk "Chess" none "chess.desktop"

/-- A small concrete host environment with only non-empty strings. -/
def defaultEnv : HostEnv :=
  HostEnv.mk
    (BookmarksHost.mk "/home/user" (fun _ => "/home/user/dir") (fun _ => sampleFile))
    (RunningAppsHost.mk [RApp.mk [RWindow.mk "Editor" 0] "app-icon"])
    (RecentHost.mk
      [RecentInfo.mk true "notes.txt" "text-icon" "file:///notes.txt",
       RecentInfo.mk false "gone.txt" "text-icon" "file:///gone.txt"])
    (FrequentHost.mk [some (ShellApp.mk "Browser" "web-icon" "browser.desktop"), none])
    (FavoritesHost.mk ["term.desktop"]
      (fun _ => some (ShellApp.mk "Terminal" "term-icon" "term.desktop")))
    (MainMenuHost.mk
      [.ENTRY (GAppInfo.mk "App" (some "a-icon") "app.desktop"),
       .DIRECTORY "Games" "games-icon" [.ENTRY noIconApp],
       .SEPARATOR])

/-- A host on which every activation call succeeds. -/
def okHost : Host :=
  Host.mk (fun _ => .ok ()) (.ok ()) (fun _ => .ok ()) (fun _ => .ok ())
    (fun _ => .ok ()) (fun _ => .ok ()) (fun _ => .ok ()) (fun _ => .ok ())

/-- A host on which creating a launch context succeeds but every other
call throws `"boom"`. -/
def errHost : Host :=
  Host.mk (fun _ => .error "boom") (.ok ()) (fun _ => .error "boom")
    (fun _ => .error "boom") (fun _ => .error "boom") (fun _ => .error "boom")
    (fun _ => .error "boom") (fun _ => .error "boom")

/-! ## Helper lemmas -/

theorem wellShaped_mkLeaf (n i : String) (a : ActSpec) :
    wellShaped (mkLeaf n i a) = true := rfl

theorem wellShaped_mkContainer (n i : String) (xs : List JSRecord) :
    wellShaped (mkContainer n i xs) = wellShapedList xs := rfl

theorem wellShapedList_iff (xs : List JSRecord) :
    wellShapedList xs = true ↔ ∀ x ∈ xs, wellShaped x = true := by
  induction xs with
  | nil => simp [wellShapedList]
  | cons x xs ih => simp [wellShapedList, ih]

theorem recNonEmpty_mkLeaf (n i : String) (a : ActSpec) :
    recNonEmpty (mkLeaf n i a) = (!n.isEmpty && !i.isEmpty) := by
  simp [recNonEmpty, mkLeaf]

theorem recNonEmpty_mkContainer (n i : String) (xs : List JSRecord) :
    recNonEmpty (mkContainer n i xs)
      = (!n.isEmpty && !i.isEmpty && recNonEmptyList xs) := rfl

theorem recNonEmptyList_iff (xs : List JSRecord) :
    recNonEmptyList xs = true ↔ ∀ x ∈ xs, recNonEmpty x = true := by
  induction xs with
  | nil => simp [recNonEmptyList]
  | cons x xs ih => simp [recNonEmptyList, ih]

/-! Characterisations of the item lists each submenu factory builds: the
push-style folds are append-only, so the result is the host collection,
sliced and filtered, mapped in order. -/

theorem bookmarks_createItem_eq (h : BookmarksHost) (name icon : String) :
    ItemTypes.Bookmarks.createItem h name icon
      = mkContainer name icon
          (ItemTypes.pushFile (h.newForPath h.getHomeDir) ::
            ItemTypes.DEFAULT_DIRECTORIES.map
              (fun d => ItemTypes.pushFile (h.newForPath (h.getUserSpecialDir d)))) :=
  rfl

theorem windows_fold (iconString : String) (ws : List RWindow)
    (init : List JSRecord) :
    ws.foldl
      (fun acc2 w => acc2 ++ [mkLeaf w.title iconString (.windowAct w.id)]) init
      = init ++ ws.map (windowLeaf iconString) := by
  induction ws generalizing init with
  | nil => simp
  | cons w ws ih => simp [ih, windowLeaf]

theorem runningApps_fold (l : List RApp) (init : List JSRecord) :
    l.foldl
      (fun acc app =>
        app.windows.foldl
          (fun acc2 w => acc2 ++ [mkLeaf w.title app.iconString (.windowAct w.id)])
          acc)
      init
      = init ++ l.flatMap (fun app => app.windows.map (windowLeaf app.iconString)) := by
  induction l generalizing init with
  | nil => simp
  | cons a l ih => rw [List.foldl_cons, windows_fold, ih]; simp

theorem runningApps_createItem_eq (h : RunningAppsHost) (name icon : String) :
    ItemTypes.RunningApps.createItem h name icon
      = mkContainer name icon
          (h.getRunning.flatMap (fun app => app.windows.map (windowLeaf app.iconString))) := by
  dsimp only [ItemTypes.RunningApps.createItem]
  rw [runningApps_fold, List.nil_append]

theorem recent_fold (l : List RecentInfo) (init : List JSRecord) :
    l.foldl
      (fun acc rf =>
        if rf.existsOnDisk then
          acc ++ [mkLeaf rf.displayName rf.giconString (.recentAct rf.uri)]
        else acc)
      init
      = init ++ (l.filter (fun rf => rf.existsOnDisk)).map recentLeaf := by
  induction l generalizing init with
  | nil => simp
  | cons rf l ih =>
    rw [List.foldl_cons]
    by_cases hrf : rf.existsOnDisk = true <;>
      simp [hrf, ih, recentLeaf, List.filter_cons]

theorem recentFiles_createItem_eq (h : RecentHost) (name icon : String)
    (maxNum : Nat) :
    ItemTypes.RecentFiles.createItem h name icon maxNum
      = mkContainer name icon
          (((h.getItems.take maxNum).filter (fun rf => rf.existsOnDisk)).map
            recentLeaf) := by
  dsimp only [ItemTypes.RecentFiles.createItem]
  rw [recent_fold, List.nil_append]

theorem frequent_fold (l : List (Option ShellApp)) (init : List JSRecord) :
    l.foldl
      (fun acc app? =>
        match app? with
        | some app => acc ++ [mkLeaf app.appName app.iconString (.appNewWindowAct app.id)]
        | none => acc)
      init
      = init ++ l.filterMap (Option.map appLeaf) := by
  induction l generalizing init with
  | nil => simp
  | cons a? l ih => cases a? <;> simp [ih, appLeaf, List.filterMap_cons]

theorem frequentlyUsed_createItem_eq (h : FrequentHost) (name icon : String)
    (maxNum : Nat) :
    ItemTypes.FrequentlyUsed.createItem h name icon maxNum
      = mkContainer name icon
          ((h.getMostUsed.take maxNum).filterMap (Option.map appLeaf)) := by
  dsimp only [ItemTypes.FrequentlyUsed.createItem]
  rw [frequent_fold, List.nil_append]

theorem favorites_fold (lookup : String → Option ShellApp) (l : List String)
    (init : List JSRecord) :
    l.foldl
      (fun acc appName =>
        match lookup appName with
        | some app => acc ++ [mkLeaf app.appName app.iconString (.appNewWindowAct app.id)]
        | none => acc)
      init
      = init ++ l.filterMap (fun appName => (lookup appName).map appLeaf) := by
  induction l generalizing init with
  | nil => simp
  | cons a l ih => cases h : lookup a <;> simp [h, ih, appLeaf, List.filterMap_cons]

theorem favorites_createItem_eq (h : FavoritesHost) (name icon : String) :
    ItemTypes.Favorites.createItem h name icon
      = mkContainer name icon
          (h.favoriteApps.filterMap (fun appName => (h.lookupApp appName).map appLeaf)) := by
  dsimp only [ItemTypes.Favorites.createItem]
  rw [favorites_fold, List.nil_append]

theorem pushMenuItems_eq_flatMap (ns : List GMenuNode) :
    ItemTypes.pushMenuItems ns = ns.flatMap nodeContribution := by
  induction ns with
  | nil => simp [ItemTypes.pushMenuItems]
  | cons n rest ih =>
    cases n <;> simp [ItemTypes.pushMenuItems, nodeContribution, ih]

theorem mainMenu_createItem_eq (h : MainMenuHost) (name icon : String) :
    ItemTypes.MainMenu.createItem h name icon
      = mkContainer name icon (h.root.flatMap nodeContribution) := by
  dsimp only [ItemTypes.MainMenu.createItem]
  rw [pushMenuItems_eq_flatMap]

theorem wellShaped_pushFile (f : GFile) :
    wellShaped (ItemTypes.pushFile f) = true := rfl

theorem wellShaped_entryItem (app : GAppInfo) :
    wellShaped (ItemTypes.entryItem app) = true := rfl

theorem wellShaped_pushMenuItems (ns : List GMenuNode) :
    wellShapedList (ItemTypes.pushMenuItems ns) = true := by
  induction ns using ItemTypes.pushMenuItems.induct with
  | case1 => simp [ItemTypes.pushMenuItems, wellShapedList]
  | case2 app rest ih =>
    simp [ItemTypes.pushMenuItems, wellShapedList, wellShaped_entryItem, ih]
  | case3 n i cs rest ihcs ih =>
    simp [ItemTypes.pushMenuItems, wellShapedList, wellShaped_mkContainer, ihcs, ih]
  | case4 rest ih => simpa [ItemTypes.pushMenuItems] using ih
  | case5 rest ih => simpa [ItemTypes.pushMenuItems] using ih
  | case6 rest ih => simpa [ItemTypes.pushMenuItems] using ih

theorem recNonEmpty_pushFile (f : GFile) (hf : gfileNonEmpty f = true) :
    recNonEmpty (ItemTypes.pushFile f) = true := by
  rcases f with ⟨qd, qi, b, u⟩
  simp only [gfileNonEmpty, Bool.and_eq_true] at hf
  obtain ⟨⟨h1, h2⟩, h3⟩ := hf
  cases qd <;> cases qi <;>
    simp_all [ItemTypes.pushFile, recNonEmpty_mkLeaf] <;> decide

theorem recNonEmpty_entryItem (app : GAppInfo)
    (h : gmenuNodeNonEmpty (.ENTRY app) = true) :
    recNonEmpty (ItemTypes.entryItem app) = true := by
  rcases app with ⟨n, i, id⟩
  simp only [gmenuNodeNonEmpty, Bool.and_eq_true] at h
  cases i <;> simp_all [ItemTypes.entryItem, recNonEmpty_mkLeaf]
  decide

theorem recNonEmpty_pushMenuItems (ns : List GMenuNode)
    (h : gmenuNodesNonEmpty ns = true) :
    recNonEmptyList (ItemTypes.pushMenuItems ns) = true := by
  induction ns using ItemTypes.pushMenuItems.induct with
  | case1 => simp [ItemTypes.pushMenuItems, recNonEmptyList]
  | case2 app rest ih =>
    simp only [gmenuNodesNonEmpty, Bool.and_eq_true] at h
    simp [ItemTypes.pushMenuItems, recNonEmptyList,
      recNonEmpty_entryItem app h.1, ih h.2]
  | case3 n i cs rest ihcs ih =>
    simp only [gmenuNodesNonEmpty, gmenuNodeNonEmpty, Bool.and_eq_true] at h
    obtain ⟨⟨⟨hn, hi⟩, hcs⟩, hrest⟩ := h
    simp [ItemTypes.pushMenuItems, recNonEmptyList, recNonEmpty_mkContainer,
      hn, hi, ihcs hcs, ih hrest]
  | case4 rest ih =>
    simp only [gmenuNodesNonEmpty, gmenuNodeNonEmpty, Bool.true_and] at h
    simpa [ItemTypes.pushMenuItems] using ih h
  | case5 rest ih =>
    simp only [gmenuNodesNonEmpty, gmenuNodeNonEmpty, Bool.true_and] at h
    simpa [ItemTypes.pushMenuItems] using ih h
  | case6 rest ih =>
    simp only [gmenuNodesNonEmpty, gmenuNodeNonEmpty, Bool.true_and] at h
    simpa [ItemTypes.pushMenuItems] using ih h

theorem itemsD_mkContainer (n i : String) (xs : List JSRecord) :
    (mkContainer n i xs).itemsD = xs := rfl

theorem recNonEmpty_windowLeaf (iconString : String) (w : RWindow)
    (ht : w.title.isEmpty = false) (hi : iconString.isEmpty = false) :
    recNonEmpty (windowLeaf iconString w) = true := by
  simp [windowLeaf, recNonEmpty_mkLeaf, ht, hi]

theorem recNonEmpty_recentLeaf (rf : RecentInfo)
    (h : recentInfoNonEmpty rf = true) :
    recNonEmpty (recentLeaf rf) = true := by
  simp only [recentInfoNonEmpty, Bool.and_eq_true] at h
  simp [recentLeaf, recNonEmpty_mkLeaf, h.1, h.2]

theorem recNonEmpty_appLeaf (a : ShellApp)
    (h : shellAppNonEmpty a = true) :
    recNonEmpty (appLeaf a) = true := by
  simp only [shellAppNonEmpty, Bool.and_eq_true] at h
  simp [appLeaf, recNonEmpty_mkLeaf, h.1, h.2]

theorem hostNonEmpty_defaultEnv : HostNonEmpty defaultEnv := by
  refine ⟨fun p => ?_, by decide, by decide, by decide, ?_, by decide⟩
  · show gfileNonEmpty sampleFile = true
    decide
  intro a app h
  have h2 : some (ShellApp.mk "Terminal" "term-icon" "term.desktop") = some app := h
  injection h2 with h3
  rw [← h3]
  decide

/-! ## Claim theorems -/

/-- C1: for every registered item type and every parameter tuple (and
every host state), the record returned by `createItem` is either a leaf
`{name, icon, activate}` or a container `{name, icon, items}`, and every
element of `items` recursively has one of these two shapes; no record has
both an `activate` and an `items` field (`wellShaped` states exactly this
disjunction, recursively). -/
theorem C1_createItem_wellShaped (t : ItemTypeId) (env : HostEnv)
    (name icon param : String) (maxNum : Nat) :
    wellShaped (createItemOf t env name icon param maxNum) = true := by
  cases t with
  | Hotkey => rfl
  | Command => rfl
  | Url => rfl
  | File => rfl
  | Bookmarks =>
    show wellShaped (ItemTypes.Bookmarks.createItem env.bookmarks name icon) = true
    rw [bookmarks_createItem_eq, wellShaped_mkContainer, wellShapedList_iff]
    intro x hx
    rcases List.mem_cons.mp hx with h | h
    · subst h; exact wellShaped_pushFile _
    · rcases List.mem_map.mp h with ⟨d, _, rfl⟩
      exact wellShaped_pushFile _
  | RunningApps =>
    show wellShaped (ItemTypes.RunningApps.createItem env.runningApps name icon) = true
    rw [runningApps_createItem_eq, wellShaped_mkContainer, wellShapedList_iff]
    intro x hx
    rcases List.mem_flatMap.mp hx with ⟨app, _, hw⟩
    rcases List.mem_map.mp hw with ⟨w, _, rfl⟩
    rfl
  | RecentFiles =>
    show wellShaped (ItemTypes.RecentFiles.createItem env.recent name icon maxNum) = true
    rw [recentFiles_createItem_eq, wellShaped_mkContainer, wellShapedList_iff]
    intro x hx
    rcases List.mem_map.mp hx with ⟨rf, _, rfl⟩
    rfl
  | FrequentlyUsed =>
    show wellShaped (ItemTypes.FrequentlyUsed.createItem env.frequent name icon maxNum) = true
    rw [frequentlyUsed_createItem_eq, wellShaped_mkContainer, wellShapedList_iff]
    intro x hx
    rcases List.mem_filterMap.mp hx with ⟨a?, _, hsome⟩
    cases a? with
    | none => simp at hsome
    | some a =>
      rw [← Option.some.inj hsome]
      rfl
  | Favorites =>
    show wellShaped (ItemTypes.Favorites.createItem env.favorites name icon) = true
    rw [favorites_createItem_eq, wellShaped_mkContainer, wellShapedList_iff]
    intro x hx
    rcases List.mem_filterMap.mp hx with ⟨appName, _, hsome⟩
    cases happ : env.favorites.lookupApp appName with
    | none => rw [happ] at hsome; simp at hsome
    | some a =>
      rw [happ] at hsome
      rw [← Option.some.inj hsome]
      rfl
  | MainMenu =>
    show wellShaped (ItemTypes.MainMenu.createItem env.mainMenu name icon) = true
    dsimp only [ItemTypes.MainMenu.createItem]
    rw [wellShaped_mkContainer]
    exact wellShaped_pushMenuItems _

/-- C2 counterexample: the leaf produced by `Hotkey.createItem` carries
the accelerator closure, and on a host where
`InputManipulator.activateAccelerator` throws, running that closure lets
the exception escape `activate` -- there is no try/catch in the `Hotkey`
activation path, contradicting the claim that every activation path has a
local failure handler. -/
theorem C2_counterexample :
    (ItemTypes.Hotkey.createItem "n" "i" "k").activate = some (.hotkeyAct "k") ∧
    runActivate errHost (.hotkeyAct "k") = .escaped "boom" :=
  ⟨rfl, rfl⟩

/-- C2 (amended): only the `Command`, `Url`, `File`, `Bookmarks`,
`RecentFiles` and `MainMenu`-entry activations wrap their host launch call
in a try/catch that emits a notification; in `Bookmarks`, `RecentFiles`
and `MainMenu` the launch-context creation sits outside the handler, so
only with a successfully created context can no exception escape.  The
`Hotkey`, `RunningApps` (window activation), `FrequentlyUsed` and
`Favorites` activations invoke their single host call with no handler at
all, so a throwing host call escapes `activate` unchanged. -/
theorem C2_amended_handlers (h : Host) :
    (∀ command, isEscaped (runActivate h (.commandAct command)) = false) ∧
    (∀ url, isEscaped (runActivate h (.urlAct url)) = false) ∧
    (∀ file, isEscaped (runActivate h (.fileAct file)) = false) ∧
    (∀ uri, h.createAppLaunchContext = .ok () →
      isEscaped (runActivate h (.bookmarkAct uri)) = false) ∧
    (∀ uri, h.createAppLaunchContext = .ok () →
      isEscaped (runActivate h (.recentAct uri)) = false) ∧
    (∀ appId, h.createAppLaunchContext = .ok () →
      isEscaped (runActivate h (.appLaunchAct appId)) = false) ∧
    (∀ hotkey e, h.activateAccelerator hotkey = .error e →
      runActivate h (.hotkeyAct hotkey) = .escaped e) ∧
    (∀ w e, h.windowActivate w = .error e →
      runActivate h (.windowAct w) = .escaped e) ∧
    (∀ appId e, h.openNewWindow appId = .error e →
      runActivate h (.appNewWindowAct appId) = .escaped e) := by
  refine ⟨?_, ?_, ?_, ?_, ?_, ?_, ?_, ?_, ?_⟩
  · intro command
    cases hctx : h.createAppLaunchContext with
    | error e => simp [runActivate, hctx, isEscaped]
    | ok u =>
      cases hcr : h.createFromCommandline command with
      | error e => simp [runActivate, hctx, hcr, isEscaped]
      | ok u2 =>
        cases hl : h.launchCommand command with
        | error e => simp [runActivate, hctx, hcr, hl, isEscaped]
        | ok u3 => simp [runActivate, hctx, hcr, hl, isEscaped]
  · intro url
    cases hl : h.launchDefaultForUri url <;> simp [runActivate, hl, isEscaped]
  · intro file
    cases hl : h.launchDefaultForUri ("file://" ++ file) <;>
      simp [runActivate, hl, isEscaped]
  · intro uri hctx
    cases hl : h.launchDefaultForUri uri <;> simp [runActivate, hctx, hl, isEscaped]
  · intro uri hctx
    cases hl : h.launchDefaultForUri uri <;> simp [runActivate, hctx, hl, isEscaped]
  · intro appId hctx
    cases hl : h.appLaunch appId <;> simp [runActivate, hctx, hl, isEscaped]
  · intro hotkey e he
    simp [runActivate, he]
  · intro w e he
    simp [runActivate, he]
  · intro appId e he
    simp [runActivate, he]

/-- Witness for the amended C2, on the concrete host `errHost` (context
creation succeeds, every other call throws `"boom"`): the wrapped
`Bookmarks` launch does not escape, while the unwrapped `Hotkey` call
escapes with the host's exception. -/
theorem C2_amended_witness :
    errHost.createAppLaunchContext = .ok () ∧
    errHost.activateAccelerator "k" = .error "boom" ∧
    isEscaped (runActivate errHost (.bookmarkAct "file:///x")) = false ∧
    runActivate errHost (.hotkeyAct "k") = .escaped "boom" :=
  ⟨rfl, rfl,
   (C2_amended_handlers errHost).2.2.2.1 "file:///x" rfl,
   (C2_amended_handlers errHost).2.2.2.2.2.2.1 "k" "boom" rfl⟩

/-- C3 counterexample: `createItem` copies the caller-supplied `name` and
`icon` verbatim, so with empty caller parameters the produced record has
an empty name and icon -- the claimed unconditional non-emptiness fails. -/
theorem C3_counterexample :
    (createItemOf .Hotkey defaultEnv "" "" "k" 0).name = some "" ∧
    recNonEmpty (createItemOf .Hotkey defaultEnv "" "" "k" 0) = false := by
  constructor
  · rfl
  · decide

/-- C3 (amended): every produced record always has `name` and `icon`
fields present, and they are non-empty provided the caller-supplied
`name` and `icon` are non-empty and every string the host hands to the
factory (titles, display names, app and directory names, icon strings,
basenames) is non-empty; the code itself performs no validation, and the
only strings it introduces on its own are the non-empty fallback
`'missing-image'` and the basename fallback. -/
theorem C3_amended_nonempty (t : ItemTypeId) (env : HostEnv)
    (name icon param : String) (maxNum : Nat)
    (henv : HostNonEmpty env)
    (hn : name.isEmpty = false) (hi : icon.isEmpty = false) :
    recNonEmpty (createItemOf t env name icon param maxNum) = true := by
  obtain ⟨hbook, hrun, hrec, hfreq, hfav, hmenu⟩ := henv
  cases t with
  | Hotkey => simp [createItemOf, ItemTypes.Hotkey.createItem, recNonEmpty_mkLeaf, hn, hi]
  | Command => simp [createItemOf, ItemTypes.Command.createItem, recNonEmpty_mkLeaf, hn, hi]
  | Url => simp [createItemOf, ItemTypes.Url.createItem, recNonEmpty_mkLeaf, hn, hi]
  | File => simp [createItemOf, ItemTypes.File.createItem, recNonEmpty_mkLeaf, hn, hi]
  | Bookmarks =>
    show recNonEmpty (ItemTypes.Bookmarks.createItem env.bookmarks name icon) = true
    rw [bookmarks_createItem_eq, recNonEmpty_mkContainer]
    simp only [hn, hi, Bool.not_false, Bool.true_and]
    rw [recNonEmptyList_iff]
    intro x hx
    rcases List.mem_cons.mp hx with h | h
    · subst h; exact recNonEmpty_pushFile _ (hbook _)
    · rcases List.mem_map.mp h with ⟨d, _, rfl⟩
      exact recNonEmpty_pushFile _ (hbook _)
  | RunningApps =>
    show recNonEmpty (ItemTypes.RunningApps.createItem env.runningApps name icon) = true
    rw [runningApps_createItem_eq, recNonEmpty_mkContainer]
    simp only [hn, hi, Bool.not_false, Bool.true_and]
    rw [recNonEmptyList_iff]
    intro x hx
    rcases List.mem_flatMap.mp hx with ⟨app, happ, hw⟩
    rcases List.mem_map.mp hw with ⟨w, hwmem, rfl⟩
    have h1 := (List.all_eq_true.mp hrun) app happ
    simp only [rappNonEmpty, Bool.and_eq_true, List.all_eq_true] at h1
    have h2 := h1.2 w hwmem
    simp only [Bool.not_eq_true'] at h2
    refine recNonEmpty_windowLeaf _ _ h2 ?_
    have := h1.1
    simpa [Bool.not_eq_true'] using this
  | RecentFiles =>
    show recNonEmpty (ItemTypes.RecentFiles.createItem env.recent name icon maxNum) = true
    rw [recentFiles_createItem_eq, recNonEmpty_mkContainer]
    simp only [hn, hi, Bool.not_false, Bool.true_and]
    rw [recNonEmptyList_iff]
    intro x hx
    rcases List.mem_map.mp hx with ⟨rf, hrf, rfl⟩
    have hrfmem : rf ∈ env.recent.getItems :=
      List.take_subset maxNum _ (List.mem_filter.mp hrf).1
    exact recNonEmpty_recentLeaf rf ((List.all_eq_true.mp hrec) rf hrfmem)
  | FrequentlyUsed =>
    show recNonEmpty (ItemTypes.FrequentlyUsed.createItem env.frequent name icon maxNum) = true
    rw [frequentlyUsed_createItem_eq, recNonEmpty_mkContainer]
    simp only [hn, hi, Bool.not_false, Bool.true_and]
    rw [recNonEmptyList_iff]
    intro x hx
    rcases List.mem_filterMap.mp hx with ⟨a?, hamem, hsome⟩
    cases a? with
    | none => simp at hsome
    | some a =>
      rw [← Option.some.inj hsome]
      have hamem2 : some a ∈ env.frequent.getMostUsed :=
        List.take_subset maxNum _ hamem
      exact recNonEmpty_appLeaf a ((List.all_eq_true.mp hfreq) (some a) hamem2)
  | Favorites =>
    show recNonEmpty (ItemTypes.Favorites.createItem env.favorites name icon) = true
    rw [favorites_createItem_eq, recNonEmpty_mkContainer]
    simp only [hn, hi, Bool.not_false, Bool.true_and]
    rw [recNonEmptyList_iff]
    intro x hx
    rcases List.mem_filterMap.mp hx with ⟨appName, _, hsome⟩
    cases happ : env.favorites.lookupApp appName with
    | none => rw [happ] at hsome; simp at hsome
    | some a =>
      rw [happ] at hsome
      rw [← Option.some.inj hsome]
      exact recNonEmpty_appLeaf a (hfav appName a happ)
  | MainMenu =>
    show recNonEmpty (ItemTypes.MainMenu.createItem env.mainMenu name icon) = true
    dsimp only [ItemTypes.MainMenu.createItem]
    rw [recNonEmpty_mkContainer]
    simp only [hn, hi, Bool.not_false, Bool.true_and]
    exact recNonEmpty_pushMenuItems _ hmenu

/-- Witness for the amended C3: the concrete host `defaultEnv` satisfies
the non-emptiness side conditions, and the `MainMenu` record built from
it (exercising the recursion, the `'missing-image'` fallback and both
record shapes) has non-empty names and icons throughout. -/
theorem C3_amended_witness :
    HostNonEmpty defaultEnv ∧
    recNonEmpty (createItemOf .MainMenu defaultEnv "Menu" "apps" "" 0) = true :=
  ⟨hostNonEmpty_defaultEnv,
   C3_amended_nonempty .MainMenu defaultEnv "Menu" "apps" "" 0
     hostNonEmpty_defaultEnv rfl rfl⟩

/-- C4: for every `maxNum : Nat` (the claim's non-negative count) and
every host list, the submenus of `RecentFiles.createItem` and
`FrequentlyUsed.createItem` hold at most `maxNum` children: both factories
take the prefix `slice(0, maxNum)` (here `List.take maxNum`) of the
host-returned list before mapping entries to leaves. -/
theorem C4_maxNum_bound (hr : RecentHost) (hf : FrequentHost)
    (name icon : String) (maxNum : Nat) :
    (ItemTypes.RecentFiles.createItem hr name icon maxNum).itemsD.length ≤ maxNum ∧
    (ItemTypes.FrequentlyUsed.createItem hf name icon maxNum).itemsD.length ≤ maxNum := by
  constructor
  · rw [recentFiles_createItem_eq, itemsD_mkContainer, List.length_map]
    calc ((hr.getItems.take maxNum).filter (fun rf => rf.existsOnDisk)).length
        ≤ (hr.getItems.take maxNum).length := List.length_filter_le _ _
      _ ≤ maxNum := by rw [List.length_take]; exact min_le_left _ _
  · rw [frequentlyUsed_createItem_eq, itemsD_mkContainer]
    calc ((hf.getMostUsed.take maxNum).filterMap (Option.map appLeaf)).length
        ≤ (hf.getMostUsed.take maxNum).length := List.length_filterMap_le _ _
      _ ≤ maxNum := by rw [List.length_take]; exact min_le_left _ _

/-- C5: `pushMenuItems` is a total function on every finite menu tree
(termination is by construction of the Lean function), and it acts by the
fixed three-way switch: the items pushed for a node list are the
concatenation of each node's contribution, where an `ENTRY` contributes
exactly one leaf (`activate` present, no `items`), a `DIRECTORY`
contributes exactly one container filled by recursing into its children,
and `SEPARATOR`, `HEADER` and `ALIAS` contribute nothing. -/
theorem C5_pushMenuItems_three_way (ns : List GMenuNode) :
    ItemTypes.pushMenuItems ns = ns.flatMap nodeContribution ∧
    (∀ app : GAppInfo,
      nodeContribution (.ENTRY app) = [ItemTypes.entryItem app] ∧
      (ItemTypes.entryItem app).activate.isSome = true ∧
      (ItemTypes.entryItem app).items = none) ∧
    (∀ (n i : String) (cs : List GMenuNode),
      nodeContribution (.DIRECTORY n i cs)
        = [mkContainer n i (ItemTypes.pushMenuItems cs)] ∧
      (mkContainer n i (ItemTypes.pushMenuItems cs)).activate = none) ∧
    nodeContribution .SEPARATOR = [] ∧
    nodeContribution .HEADER = [] ∧
    nodeContribution .ALIAS = [] :=
  ⟨pushMenuItems_eq_flatMap ns, fun _ => ⟨rfl, rfl, rfl⟩,
   fun _ _ _ => ⟨rfl, rfl⟩, rfl, rfl, rfl⟩

/-- C6: for every submenu factory and every host collection, the children
of the produced submenu are exactly the host entries in host order, after
the factory's slicing (`take maxNum`) and filtering: each item list is a
`map` / `filterMap` / `flatMap` over the host list (plus, for `Bookmarks`,
the home directory in front), and these combinators preserve order and
never reorder, sort or deduplicate. -/
theorem C6_host_order (hb : BookmarksHost) (hr : RunningAppsHost)
    (hrec : RecentHost) (hf : FrequentHost) (hfav : FavoritesHost)
    (hm : MainMenuHost) (name icon : String) (maxNum : Nat) :
    (ItemTypes.Bookmarks.createItem hb name icon).itemsD
      = ItemTypes.pushFile (hb.newForPath hb.getHomeDir) ::
          ItemTypes.DEFAULT_DIRECTORIES.map
            (fun d => ItemTypes.pushFile (hb.newForPath (hb.getUserSpecialDir d))) ∧
    (ItemTypes.RunningApps.createItem hr name icon).itemsD
      = hr.getRunning.flatMap (fun app => app.windows.map (windowLeaf app.iconString)) ∧
    (ItemTypes.RecentFiles.createItem hrec name icon maxNum).itemsD
      = ((hrec.getItems.take maxNum).filter (fun rf => rf.existsOnDisk)).map recentLeaf ∧
    (ItemTypes.FrequentlyUsed.createItem hf name icon maxNum).itemsD
      = (hf.getMostUsed.take maxNum).filterMap (Option.map appLeaf) ∧
    (ItemTypes.Favorites.createItem hfav name icon).itemsD
      = hfav.favoriteApps.filterMap
          (fun appName => (hfav.lookupApp appName).map appLeaf) ∧
    (ItemTypes.MainMenu.createItem hm name icon).itemsD
      = hm.root.flatMap nodeContribution := by
  refine ⟨?_, ?_, ?_, ?_, ?_, ?_⟩
  · rw [bookmarks_createItem_eq, itemsD_mkContainer]
  · rw [runningApps_createItem_eq, itemsD_mkContainer]
  · rw [recentFiles_createItem_eq, itemsD_mkContainer]
  · rw [frequentlyUsed_createItem_eq, itemsD_mkContainer]
  · rw [favorites_createItem_eq, itemsD_mkContainer]
  · rw [mainMenu_createItem_eq, itemsD_mkContainer]

/-- C7: the registry is a static table: each of its ten entries carries a
non-empty `name`, an `icon` string, a `description` string, a
`settingsType` among the values of `SettingsTypes`, a `settingsList`
string, and a `createItem` factory (dispatched by `createItemOf`, which
builds a record from the caller's `name` and `icon` for every entry). -/
theorem C7_registry_table (t : ItemTypeId) :
    t ∈ allItemTypes ∧
    (descrOf t).name.isEmpty = false ∧
    (descrOf t).icon.isEmpty = false ∧
    (descrOf t).description.isEmpty = false ∧
    (descrOf t).settingsType ∈ SettingsTypes.values ∧
    (descrOf t).settingsList.isEmpty = false ∧
    ∀ (env : HostEnv) (name icon param : String) (maxNum : Nat),
      (createItemOf t env name icon param maxNum).name = some name ∧
      (createItemOf t env name icon param maxNum).icon = some icon := by
  cases t <;>
    exact ⟨by decide, by decide, by decide, by decide, by decide, by decide,
      fun env name icon param maxNum => ⟨rfl, rfl⟩⟩

/-- C8: `Bookmarks.createItem` always returns a submenu with exactly nine
children, in the fixed order home directory, Desktop, Documents,
Download, Music, Pictures, Templates, Public Share, Videos; there is no
existence check anywhere -- an entry is pushed for each path on every
host. -/
theorem C8_bookmarks_nine (h : BookmarksHost) (name icon : String) :
    (ItemTypes.Bookmarks.createItem h name icon).itemsD
      = [ItemTypes.pushFile (h.newForPath h.getHomeDir),
         ItemTypes.pushFile (h.newForPath (h.getUserSpecialDir .DIRECTORY_DESKTOP)),
         ItemTypes.pushFile (h.newForPath (h.getUserSpecialDir .DIRECTORY_DOCUMENTS)),
         ItemTypes.pushFile (h.newForPath (h.getUserSpecialDir .DIRECTORY_DOWNLOAD)),
         ItemTypes.pushFile (h.newForPath (h.getUserSpecialDir .DIRECTORY_MUSIC)),
         ItemTypes.pushFile (h.newForPath (h.getUserSpecialDir .DIRECTORY_PICTURES)),
         ItemTypes.pushFile (h.newForPath (h.getUserSpecialDir .DIRECTORY_TEMPLATES)),
         ItemTypes.pushFile (h.newForPath (h.getUserSpecialDir .DIRECTORY_PUBLIC_SHARE)),
         ItemTypes.pushFile (h.newForPath (h.getUserSpecialDir .DIRECTORY_VIDEOS))] ∧
    (ItemTypes.Bookmarks.createItem h name icon).itemsD.length = 9 := by
  constructor
  · rw [bookmarks_createItem_eq, itemsD_mkContainer]
    rfl
  · rw [bookmarks_createItem_eq, itemsD_mkContainer]
    rfl

/-- C9: the submenu builders filter host entries silently: every child of
the `RecentFiles` submenu is built from a host entry whose `exists()` is
true, every child of the `FrequentlyUsed` submenu from a non-null app in
the host list, every child of the `Favorites` submenu from a favorite
name whose lookup is non-null -- and each produced list is no longer than
the (sliced) host list, so a submenu may have fewer items than the host
list or than `maxNum`. -/
theorem C9_silent_filtering (hrec : RecentHost) (hf : FrequentHost)
    (hfav : FavoritesHost) (name icon : String) (maxNum : Nat) :
    (∀ r ∈ (ItemTypes.RecentFiles.createItem hrec name icon maxNum).itemsD,
      ∃ rf, rf ∈ hrec.getItems ∧ rf.existsOnDisk = true ∧ r = recentLeaf rf) ∧
    (∀ r ∈ (ItemTypes.FrequentlyUsed.createItem hf name icon maxNum).itemsD,
      ∃ app, some app ∈ hf.getMostUsed ∧ r = appLeaf app) ∧
    (∀ r ∈ (ItemTypes.Favorites.createItem hfav name icon).itemsD,
      ∃ appName app, appName ∈ hfav.favoriteApps ∧
        hfav.lookupApp appName = some app ∧ r = appLeaf app) ∧
    (ItemTypes.RecentFiles.createItem hrec name icon maxNum).itemsD.length
      ≤ (hrec.getItems.take maxNum).length ∧
    (ItemTypes.FrequentlyUsed.createItem hf name icon maxNum).itemsD.length
      ≤ (hf.getMostUsed.take maxNum).length ∧
    (ItemTypes.Favorites.createItem hfav name icon).itemsD.length
      ≤ hfav.favoriteApps.length := by
  refine ⟨?_, ?_, ?_, ?_, ?_, ?_⟩
  · rw [recentFiles_createItem_eq, itemsD_mkContainer]
    intro r hr
    rcases List.mem_map.mp hr with ⟨rf, hrf, rfl⟩
    have h1 := List.mem_filter.mp hrf
    exact ⟨rf, List.take_subset maxNum _ h1.1, h1.2, rfl⟩
  · rw [frequentlyUsed_createItem_eq, itemsD_mkContainer]
    intro r hr
    rcases List.mem_filterMap.mp hr with ⟨a?, hamem, hsome⟩
    cases a? with
    | none => simp at hsome
    | some a =>
      exact ⟨a, List.take_subset maxNum _ hamem, (Option.some.inj hsome).symm⟩
  · rw [favorites_createItem_eq, itemsD_mkContainer]
    intro r hr
    rcases List.mem_filterMap.mp hr with ⟨appName, hmem, hsome⟩
    cases happ : hfav.lookupApp appName with
    | none => rw [happ] at hsome; simp at hsome
    | some a =>
      rw [happ] at hsome
      exact ⟨appName, a, hmem, happ, (Option.some.inj hsome).symm⟩
  · rw [recentFiles_createItem_eq, itemsD_mkContainer, List.length_map]
    exact List.length_filter_le _ _
  · rw [frequentlyUsed_createItem_eq, itemsD_mkContainer]
    exact List.length_filterMap_le _ _
  · rw [favorites_createItem_eq, itemsD_mkContainer]
    exact List.length_filterMap_le _ _

/-- Witness for C9 on the concrete host `defaultEnv` (one existing and
one deleted recent entry, `maxNum = 2`): the leaf built from the existing
entry is in the submenu, and the theorem traces it back to an existing
host entry. -/
theorem C9_witness :
    RecentInfo.mk true "notes.txt" "text-icon" "file:///notes.txt"
        ∈ defaultEnv.recent.getItems ∧
    recentLeaf (RecentInfo.mk true "notes.txt" "text-icon" "file:///notes.txt")
        ∈ (ItemTypes.RecentFiles.createItem defaultEnv.recent "n" "i" 2).itemsD ∧
    ∃ rf, rf ∈ defaultEnv.recent.getItems ∧ rf.existsOnDisk = true ∧
      recentLeaf (RecentInfo.mk true "notes.txt" "text-icon" "file:///notes.txt")
        = recentLeaf rf := by
  have hmem : recentLeaf (RecentInfo.mk true "notes.txt" "text-icon" "file:///notes.txt")
      ∈ (ItemTypes.RecentFiles.createItem defaultEnv.recent "n" "i" 2).itemsD :=
    List.Mem.head _
  exact ⟨List.Mem.head _, hmem,
    (C9_silent_filtering defaultEnv.recent defaultEnv.frequent defaultEnv.favorites
      "n" "i" 2).1 _ hmem⟩

/-- C10: failed or missing metadata lookups get defined fallbacks instead
of propagating: in `Bookmarks.pushFile`, a throwing display-name query
makes the name fall back to the file's basename and a throwing icon query
makes the icon fall back to `'missing-image'`; in `MainMenu`, an entry
whose `get_icon()` is null gets the icon `'missing-image'`.  The builders
are total on these inputs (the fallback is returned, nothing is thrown). -/
theorem C10_metadata_fallbacks (f : GFile) (e1 e2 : String) (app : GAppInfo) :
    (f.queryDisplayName = .error e1 →
      (ItemTypes.pushFile f).name = some f.basename) ∧
    (f.queryIconString = .error e2 →
      (ItemTypes.pushFile f).icon = some "missing-image") ∧
    (app.icon = none →
      (ItemTypes.entryItem app).icon = some "missing-image") := by
  refine ⟨?_, ?_, ?_⟩
  · intro h
    simp [ItemTypes.pushFile, mkLeaf, JSRecord.name, h]
  · intro h
    simp [ItemTypes.pushFile, mkLeaf, JSRecord.icon, h]
  · intro h
    simp [ItemTypes.entryItem, mkLeaf, JSRecord.icon, h]

/-- Witness for C10 at concrete inputs: a file whose two metadata queries
throw, and a menu entry without an icon. -/
theorem C10_witness :
    failFile.queryDisplayName = .error "nope" ∧
    failFile.queryIconString = .error "nope" ∧
    noIconApp.icon = none ∧
    (ItemTypes.pushFile failFile).name = some failFile.basename ∧
    (ItemTypes.pushFile failFile).icon = some "missing-image" ∧
    (ItemTypes.entryItem noIconApp).icon = some "missing-image" :=
  ⟨rfl, rfl, rfl,
   (C10_metadata_fallbacks failFile "nope" "nope" noIconApp).1 rfl,
   (C10_metadata_fallbacks failFile "nope" "nope" noIconApp).2.1 rfl,
   (C10_metadata_fallbacks failFile "nope" "nope" noIconApp).2.2 rfl⟩

end ItemRegistry
